import Mathlib

/-!
Verification development for the farm-ng base-station GNSS monitor
(`src/utils/gnss_client.py`).

The repository's core is a streaming RTCM3 framer/decoder plus an
ECEF-to-geodetic coordinate converter.  This file gives a shallow
embedding of that code:

* floating-point arithmetic is modelled over `ℝ`; Python's
  `math.atan2 y x` is modelled as `Complex.arg (x + y*I)`, which has the
  same quadrant conventions (and `atan2 0 0 = 0`);
* the third-party `pyrtcm` frame parser (not part of the repository) is
  modelled from the specification as a try-parse-one-frame capability
  with the three outcomes complete / incomplete / invalid over the
  published RTCM3 wire format (0xD3 preamble, 6 reserved bits, 10-bit
  payload length, CRC-24Q trailer);
* the stateful polling/reconnection code becomes explicit state passing
  on a monitor state, with the socket environment (connect success and
  read outcome) passed as explicit inputs.
-/

set_option maxRecDepth 400000

/-- Python's `math.atan2 y x`, modelled as the argument of the complex
number `x + y*I`.  Like `atan2`, `Complex.arg` returns values in
`(-π, π]`, is `π/2` on the positive imaginary axis, and is `0` at the
origin. -/
noncomputable def atan2 (y x : ℝ) : ℝ := Complex.arg (x + y * Complex.I)

/-- Python's `math.degrees`. -/
noncomputable def degrees (r : ℝ) : ℝ := r * (180 / Real.pi)

namespace WGS84

/-- Constant `a = 6378137.0` — semi-major axis in meters (local `a` in `ecef_to_geodetic`). -/
noncomputable def a : ℝ := 6378137.0

/-- Constant `f = 1 / 298.257223563` — flattening (local `f`). -/
noncomputable def f : ℝ := 1 / 298.257223563

/-- Constant `e2 = 2 * f - f**2` — square of eccentricity (local `e2`). -/
noncomputable def e2 : ℝ := 2 * f - f ^ 2

/-- Constant `b = a * (1 - f)` (local `b`). -/
noncomputable def b : ℝ := a * (1 - f)

/-- Constant `ep2 = (a**2 - b**2) / b**2` (local `ep2`). -/
noncomputable def ep2 : ℝ := (a ^ 2 - b ^ 2) / b ^ 2

end WGS84

/-- Local `p = math.sqrt(x**2 + y**2)` from `ecef_to_geodetic`. -/
noncomputable def pOf (x y : ℝ) : ℝ := Real.sqrt (x ^ 2 + y ^ 2)

/-- Local `theta = math.atan2(z * a, p * b)` from `ecef_to_geodetic`. -/
noncomputable def thetaOf (x y z : ℝ) : ℝ := atan2 (z * WGS84.a) (pOf x y * WGS84.b)

/-- Local `lat = math.atan2(z + ep2 * b * sin(theta)**3, p - e2 * a * cos(theta)**3)`. -/
noncomputable def latOf (x y z : ℝ) : ℝ :=
  atan2 (z + WGS84.ep2 * WGS84.b * Real.sin (thetaOf x y z) ^ 3)
    (pOf x y - WGS84.e2 * WGS84.a * Real.cos (thetaOf x y z) ^ 3)

/-- Local `N = a / math.sqrt(1 - e2 * sin(lat)**2)` from `ecef_to_geodetic`. -/
noncomputable def nOf (x y z : ℝ) : ℝ :=
  WGS84.a / Real.sqrt (1 - WGS84.e2 * Real.sin (latOf x y z) ^ 2)

/-- Local `height = p / cos(lat) - N` from `ecef_to_geodetic`. -/
noncomputable def heightOf (x y z : ℝ) : ℝ :=
  pOf x y / Real.cos (latOf x y z) - nOf x y z

/-- Function `ecef_to_geodetic` from `src/utils/gnss_client.py`: returns
`(math.degrees(lat), math.degrees(lon), height)`. -/
noncomputable def ecef_to_geodetic (x y z : ℝ) : ℝ × ℝ × ℝ :=
  (degrees (latOf x y z), degrees (atan2 y x), heightOf x y z)

/-- The same conversion transcribed from the words of the specification
(§4.3): constants `a`, `f`, derived `b = a(1-f)`, `e² = 2f - f²`,
`ep² = (a²-b²)/b²`, then `p`, `θ`, `lon`, `lat`, `N`, `height`, with
latitude and longitude converted from radians to degrees.  Used only to
compare against the definition taken from the source. -/
noncomputable def ecefToGeodeticSpec (x y z : ℝ) : ℝ × ℝ × ℝ :=
  let a : ℝ := 6378137.0
  let f : ℝ := 1 / 298.257223563
  let b : ℝ := a * (1 - f)
  let e2 : ℝ := 2 * f - f ^ 2
  let ep2 : ℝ := (a ^ 2 - b ^ 2) / b ^ 2
  let p : ℝ := Real.sqrt (x ^ 2 + y ^ 2)
  let theta : ℝ := atan2 (z * a) (p * b)
  let lon : ℝ := atan2 y x
  let lat : ℝ := atan2 (z + ep2 * b * Real.sin theta ^ 3) (p - e2 * a * Real.cos theta ^ 3)
  let N : ℝ := a / Real.sqrt (1 - e2 * Real.sin lat ^ 2)
  let height : ℝ := p / Real.cos lat - N
  (degrees lat, degrees lon, height)

/-- Modelled from the spec: an ECEF point derived from a known geodetic
point lying on the reference ellipsoid (height 0): with
`N = a / sqrt(1 - e² sin² lat)`, the point is
`(N cos lat cos lon, N cos lat sin lon, N (1-e²) sin lat)`. -/
noncomputable def geodetic_to_ecef (lat lon : ℝ) : ℝ × ℝ × ℝ :=
  (WGS84.a / Real.sqrt (1 - WGS84.e2 * Real.sin lat ^ 2) * Real.cos lat * Real.cos lon,
   WGS84.a / Real.sqrt (1 - WGS84.e2 * Real.sin lat ^ 2) * Real.cos lat * Real.sin lon,
   WGS84.a / Real.sqrt (1 - WGS84.e2 * Real.sin lat ^ 2) * (1 - WGS84.e2) * Real.sin lat)

/-- Modelled from the spec: one round of the CRC-24Q checksum (the
"3-byte checksum" of the published RTCM3 wire format, polynomial
0x1864CFB). -/
def crc24qRound (crc : Nat) : Nat :=
  if (crc * 2) &&& 0x1000000 ≠ 0 then (crc * 2) ^^^ 0x1864CFB &&& 0xFFFFFF
  else (crc * 2) &&& 0xFFFFFF

/-- Modelled from the spec: folds one byte into a CRC-24Q accumulator. -/
def crc24qByte (crc byte : Nat) : Nat :=
  (List.range 8).foldl (fun c _ => crc24qRound c) (crc ^^^ ((byte % 256) * 65536))

/-- Modelled from the spec: CRC-24Q over a byte sequence. -/
def crc24q (bs : List Nat) : Nat := bs.foldl crc24qByte 0

/-- The three big-endian bytes of a 24-bit checksum value. -/
def crcBytes (c : Nat) : List Nat := [c / 65536 % 256, c / 256 % 256, c % 256]

/-- The parsed message handed back by the frame parser: its type
identity (`parsed_data.identity`, a decimal string such as "1005") and
its raw payload bytes, from which the data fields are decoded. -/
structure RTCMMessage where
  identity : String
  payload : List Nat
deriving DecidableEq, Repr

/-- Modelled from the spec (§9): the three outcomes of the opaque
try-parse-one-frame capability (`RTCMReader.read` on a `BytesIO` over
the buffer): a complete checksum-valid message together with its raw
bytes, "not enough bytes yet" (`read` returns no message), or a raised
structural/decode error. -/
inductive ReadResult where
  | complete (raw : List Nat) (parsed : RTCMMessage)
  | incomplete
  | err
deriving DecidableEq, Repr

/-- Declared payload length of the frame at the front of the buffer:
the 10 significant bits of the 2-byte length field. -/
def rtcmPlen (buf : List Nat) : Nat := buf.getD 1 0 % 4 * 256 + buf.getD 2 0

/-- Full byte length of the frame at the front of the buffer: 3 header
bytes, the payload, 3 checksum bytes. -/
def rtcmTotal (buf : List Nat) : Nat := 3 + rtcmPlen buf + 3

/-- Payload bytes of the frame at the front of the buffer. -/
def rtcmPayload (buf : List Nat) : List Nat := (buf.drop 3).take (rtcmPlen buf)

/-- Message type identity: the first 12 bits of the payload, rendered
as a decimal string (pyrtcm's `identity`). -/
def rtcmIdent (buf : List Nat) : String :=
  toString ((rtcmPayload buf).getD 0 0 * 16 + (rtcmPayload buf).getD 1 0 / 16)

/-- Modelled from the spec: one attempt of the pyrtcm reader to parse a
message at offset 0 of the buffer (§4.2).  Structural errors — bad
preamble, malformed length (reserved bits set), checksum mismatch — and
payload-decode errors (a checksum-valid 1005 frame whose payload is
shorter than the 1005 field layout, 19 bytes) raise; a buffer too short
to determine completeness yields `incomplete`; otherwise the complete
frame and parsed message are returned. -/
def rtcmRead (buf : List Nat) : ReadResult :=
  if buf = [] then ReadResult.incomplete
  else if buf.getD 0 0 ≠ 211 then ReadResult.err
  else if buf.length < 3 then ReadResult.incomplete
  else if 4 ≤ buf.getD 1 0 then ReadResult.err
  else if buf.length < rtcmTotal buf then ReadResult.incomplete
  else if (buf.drop (3 + rtcmPlen buf)).take 3 ≠ crcBytes (crc24q (buf.take (3 + rtcmPlen buf))) then
    ReadResult.err
  else if rtcmPlen buf < 2 then ReadResult.err
  else if rtcmIdent buf = "1005" ∧ (rtcmPayload buf).length < 19 then ReadResult.err
  else ReadResult.complete (buf.take (rtcmTotal buf)) ⟨rtcmIdent buf, rtcmPayload buf⟩

/-- Big-endian interpretation of a payload as one natural number. -/
def payloadNat (payload : List Nat) : Nat :=
  payload.foldl (fun acc byte => acc * 256 + byte % 256) 0

/-- Unsigned bit field of width `w` starting at bit offset `off` (from
the most significant end) of the payload. -/
def bitField (payload : List Nat) (off w : Nat) : Nat :=
  payloadNat payload / 2 ^ (8 * payload.length - off - w) % 2 ^ w

/-- Two's-complement signed bit field. -/
def signedBitField (payload : List Nat) (off w : Nat) : Int :=
  if 2 ^ (w - 1) ≤ bitField payload off w then (bitField payload off w : Int) - 2 ^ w
  else (bitField payload off w : Int)

/-- Modelled from the spec: `parsed_data.DF025` — ECEF X of an RTCM 1005
message, a signed 38-bit fixed-point field in units of 0.0001 m
(bit offset 34 of the 1005 payload), scaled to meters. -/
noncomputable def df025 (payload : List Nat) : ℝ := (signedBitField payload 34 38 : ℝ) * 0.0001

/-- Modelled from the spec: `parsed_data.DF026` — ECEF Y (bit offset 74). -/
noncomputable def df026 (payload : List Nat) : ℝ := (signedBitField payload 74 38 : ℝ) * 0.0001

/-- Modelled from the spec: `parsed_data.DF027` — ECEF Z (bit offset 114). -/
noncomputable def df027 (payload : List Nat) : ℝ := (signedBitField payload 114 38 : ℝ) * 0.0001

/-- The `BaseStationStatus` dataclass. -/
structure BaseStationStatus where
  latitude : ℝ := 0.0
  longitude : ℝ := 0.0
  altitude : ℝ := 0.0
  accuracy_mm : ℤ := 0
  is_fixed_mode : Bool := false
  is_survey_in_active : Bool := false
  survey_in_duration : ℤ := 0

/-- The fresh snapshot created by `GnssMonitor.__init__`. -/
def initStatus : BaseStationStatus := {}

open scoped Classical in
/-- Python's `round` to an integer: round-half-to-even. -/
noncomputable def roundHalfEven (q : ℝ) : ℤ :=
  if Int.fract q < 1 / 2 then ⌊q⌋
  else if 1 / 2 < Int.fract q then ⌊q⌋ + 1
  else if Even ⌊q⌋ then ⌊q⌋ else ⌊q⌋ + 1

/-- Python's `round(x, n)`: round to `n` decimal places, half to even. -/
noncomputable def pyRound (x : ℝ) (n : ℕ) : ℝ := (roundHalfEven (x * 10 ^ n) : ℝ) / 10 ^ n

/-- The RTCM 1005 branch of `update_status` (source lines 91-100):
convert `(DF025, DF026, DF027)` with `ecef_to_geodetic` and write the
rounded coordinates through to the snapshot. -/
noncomputable def apply1005 (st : BaseStationStatus) (m : RTCMMessage) : BaseStationStatus :=
  { st with
    latitude := pyRound (ecef_to_geodetic (df025 m.payload) (df026 m.payload) (df027 m.payload)).1 8
    longitude := pyRound (ecef_to_geodetic (df025 m.payload) (df026 m.payload) (df027 m.payload)).2.1 8
    altitude := pyRound (ecef_to_geodetic (df025 m.payload) (df026 m.payload) (df027 m.payload)).2.2 2 }

/-- Source line `if parsed_data.identity == "1005": ...` — act on station-position
messages, ignore every other type. -/
noncomputable def processMessage (st : BaseStationStatus) (m : RTCMMessage) : BaseStationStatus :=
  if m.identity = "1005" then apply1005 st m else st

/-- The `while len(self._buffer) > 0` decode loop of `update_status`,
with explicit fuel.  Each continuing iteration removes at least one
byte from the buffer (a complete frame is at least 6 bytes; an error
discards exactly one byte), so `buf.length` fuel always suffices. -/
noncomputable def processBufferFuel : Nat → BaseStationStatus → List Nat →
    BaseStationStatus × List Nat
  | 0, st, buf => (st, buf)
  | fuel + 1, st, buf =>
    if buf = [] then (st, buf)
    else
      match rtcmRead buf with
      | ReadResult.incomplete => (st, buf)
      | ReadResult.err => processBufferFuel fuel st (buf.drop 1)
      | ReadResult.complete raw parsed =>
          processBufferFuel fuel (processMessage st parsed) (buf.drop raw.length)

/-- The decode loop of `update_status`, started with enough fuel. -/
noncomputable def processBuffer (st : BaseStationStatus) (buf : List Nat) :
    BaseStationStatus × List Nat :=
  processBufferFuel buf.length st buf

/-- The two states of the connection handle (`self._socket` is `None`
or a live socket). -/
inductive ConnState where
  | disconnected
  | connected
deriving DecidableEq, Repr

/-- The mutable state of a `GnssMonitor`. -/
structure GnssMonitor where
  status : BaseStationStatus
  conn : ConnState
  buffer : List Nat

/-- Modelled from the spec: the outcome of one non-blocking socket
read — data bytes (possibly zero of them), or a raised read error. -/
inductive ReadOutcome where
  | ok (data : List Nat)
  | failed
deriving DecidableEq, Repr

/-- Method `GnssMonitor.connect`: on success the socket is set (state
`connected`); on any exception the error is logged and `self._socket`
stays `None`. -/
def connectResult (m : GnssMonitor) (connectOk : Bool) : GnssMonitor :=
  if connectOk then { m with conn := ConnState.connected }
  else { m with conn := ConnState.disconnected }

/-- Method `GnssMonitor.update_status`, with the socket environment passed
explicitly: `connectOk` tells whether a connect attempt (made only when
there is no live socket) would succeed, and `readOut` is the outcome of
the socket read.  Returns the new monitor state and the optional
snapshot returned to the caller. -/
noncomputable def update_status (m : GnssMonitor) (connectOk : Bool) (readOut : ReadOutcome) :
    GnssMonitor × Option BaseStationStatus :=
  if m.conn = ConnState.disconnected ∧ connectOk = false then
    (connectResult m connectOk, none)
  else
    let m1 := { m with conn := ConnState.connected }
    match readOut with
    | ReadOutcome.failed => ({ m1 with conn := ConnState.disconnected }, none)
    | ReadOutcome.ok data =>
      if data = [] then (m1, some m1.status)
      else
        let res := processBuffer m1.status (m1.buffer ++ data)
        ({ m1 with status := res.1, buffer := res.2 }, some res.1)

/-- A minimal well-formed frame of a non-position type (identity "0"),
with a valid CRC-24Q trailer. -/
def frameOther : List Nat := [211, 0, 2, 0, 0, 48, 143, 182]

/-- A well-formed RTCM 1005 frame with a full 19-byte payload (all
ECEF data fields zero), with a valid CRC-24Q trailer. -/
def frame1005 : List Nat :=
  [211, 0, 19, 62, 208, 0, 0, 0, 0, 0, 0, 0, 0, 0, 0, 0, 0, 0, 0, 0, 0, 0, 242, 75, 244]

/-- A checksum-valid 1005 frame whose 6-byte payload is too short for
the 1005 field layout, and which contains the spurious header-like
pattern `0xD3 0x03 0xFF` inside its payload. -/
def frameBad1005Spurious : List Nat := [211, 0, 6, 62, 208, 211, 3, 255, 0, 66, 41, 224]

/-- A checksum-valid 1005 frame whose 3-byte payload is too short for
the 1005 field layout, with no spurious `0xD3` byte after position 0. -/
def frameBad1005Clean : List Nat := [211, 0, 3, 62, 208, 0, 122, 121, 254]

/-- Garbage bytes that happen to mimic a frame header declaring a
1023-byte payload. -/
def garbageHeaderLike : List Nat := [211, 3, 255]

/-- The 19-byte payload of `frame1005`. -/
def payload1005 : List Nat := [62, 208, 0, 0, 0, 0, 0, 0, 0, 0, 0, 0, 0, 0, 0, 0, 0, 0, 0]

/-- A checksum-valid frame carrying type 1005 whose payload is too
short for the 1005 field layout: it frames correctly (preamble, length,
CRC) but its payload decode fails. -/
@[reducible]
def IsUndecodable1005Frame (bs : List Nat) : Prop :=
  bs.getD 0 0 = 211 ∧ bs.getD 1 0 < 4 ∧ bs.length = rtcmTotal bs ∧
    (bs.drop (3 + rtcmPlen bs)).take 3 = crcBytes (crc24q (bs.take (3 + rtcmPlen bs))) ∧
    2 ≤ rtcmPlen bs ∧ rtcmIdent bs = "1005" ∧ (rtcmPayload bs).length < 19

/-- A freshly constructed monitor: empty buffer, no socket, default
snapshot (`GnssMonitor.__init__`). -/
def monitor0 : GnssMonitor := ⟨initStatus, ConnState.disconnected, []⟩

theorem rtcmRead_complete_facts {buf raw : List Nat} {m : RTCMMessage}
    (h : rtcmRead buf = ReadResult.complete raw m) :
    raw = buf.take (rtcmTotal buf) ∧ rtcmTotal buf ≤ buf.length ∧ 6 ≤ rtcmTotal buf := by
  unfold rtcmRead at h
  split_ifs at h with h1 h2 h3 h4 h5 h6 h7 h8
  injection h with hraw hm
  refine ⟨hraw.symm, by omega, by unfold rtcmTotal; omega⟩

theorem rtcmRead_complete_len {buf raw : List Nat} {m : RTCMMessage}
    (h : rtcmRead buf = ReadResult.complete raw m) :
    1 ≤ raw.length ∧ raw.length ≤ buf.length := by
  obtain ⟨hraw, hle, h6⟩ := rtcmRead_complete_facts h
  subst hraw
  rw [List.length_take]
  omega

theorem rtcmRead_nil : rtcmRead [] = ReadResult.incomplete := rfl

theorem processBufferFuel_incomplete (fuel : Nat) (st : BaseStationStatus) (buf : List Nat)
    (hr : rtcmRead buf = ReadResult.incomplete) :
    processBufferFuel (fuel + 1) st buf = (st, buf) := by
  by_cases hb : buf = []
  · subst hb; simp [processBufferFuel]
  · simp [processBufferFuel, hb, hr]

theorem processBufferFuel_err (fuel : Nat) (st : BaseStationStatus) (buf : List Nat)
    (hb : buf ≠ []) (hr : rtcmRead buf = ReadResult.err) :
    processBufferFuel (fuel + 1) st buf = processBufferFuel fuel st (buf.drop 1) := by
  simp [processBufferFuel, hb, hr]

theorem processBufferFuel_complete (fuel : Nat) (st : BaseStationStatus) (buf raw : List Nat)
    (m : RTCMMessage) (hr : rtcmRead buf = ReadResult.complete raw m) :
    processBufferFuel (fuel + 1) st buf =
      processBufferFuel fuel (processMessage st m) (buf.drop raw.length) := by
  have hb : buf ≠ [] := by
    intro h
    rw [h, rtcmRead_nil] at hr
    exact ReadResult.noConfusion hr
  simp [processBufferFuel, hb, hr]

theorem processBufferFuel_fuel_succ :
    ∀ (fuel : Nat) (st : BaseStationStatus) (buf : List Nat), buf.length ≤ fuel →
      processBufferFuel (fuel + 1) st buf = processBufferFuel fuel st buf := by
  intro fuel
  induction fuel with
  | zero =>
    intro st buf h
    have hb : buf = [] := List.length_eq_zero.mp (Nat.le_zero.mp h)
    subst hb
    simp [processBufferFuel]
  | succ n ih =>
    intro st buf h
    by_cases hb : buf = []
    · subst hb; simp [processBufferFuel]
    · have hpos : 0 < buf.length := List.length_pos.mpr hb
      cases hr : rtcmRead buf with
      | incomplete =>
        rw [processBufferFuel_incomplete _ _ _ hr, processBufferFuel_incomplete _ _ _ hr]
      | err =>
        rw [processBufferFuel_err _ _ _ hb hr, processBufferFuel_err _ _ _ hb hr]
        exact ih st (buf.drop 1) (by rw [List.length_drop]; omega)
      | complete raw m =>
        rw [processBufferFuel_complete _ _ _ _ _ hr, processBufferFuel_complete _ _ _ _ _ hr]
        have hlen := rtcmRead_complete_len hr
        exact ih (processMessage st m) (buf.drop raw.length) (by rw [List.length_drop]; omega)

theorem processBufferFuel_of_le :
    ∀ (k fuel : Nat) (st : BaseStationStatus) (buf : List Nat), fuel = buf.length + k →
      processBufferFuel fuel st buf = processBuffer st buf := by
  intro k
  induction k with
  | zero => intro fuel st buf h; rw [h]; rfl
  | succ n ih =>
    intro fuel st buf h
    rw [h, show buf.length + (n + 1) = (buf.length + n) + 1 from rfl,
      processBufferFuel_fuel_succ _ _ _ (by omega)]
    exact ih _ st buf rfl

theorem processBuffer_nil (st : BaseStationStatus) : processBuffer st [] = (st, []) := rfl

theorem processBuffer_incomplete {buf : List Nat} (st : BaseStationStatus)
    (hr : rtcmRead buf = ReadResult.incomplete) : processBuffer st buf = (st, buf) := by
  by_cases hb : buf = []
  · subst hb; rfl
  · have hpos : 0 < buf.length := List.length_pos.mpr hb
    unfold processBuffer
    rw [show buf.length = (buf.length - 1) + 1 by omega, processBufferFuel_incomplete _ _ _ hr]

theorem processBuffer_err {buf : List Nat} (st : BaseStationStatus) (hb : buf ≠ [])
    (hr : rtcmRead buf = ReadResult.err) :
    processBuffer st buf = processBuffer st (buf.drop 1) := by
  have hpos : 0 < buf.length := List.length_pos.mpr hb
  unfold processBuffer
  rw [show buf.length = (buf.length - 1) + 1 by omega, processBufferFuel_err _ _ _ hb hr]
  exact processBufferFuel_of_le 0 _ st (buf.drop 1) (by rw [List.length_drop]; omega)

theorem processBuffer_complete {buf raw : List Nat} {m : RTCMMessage} (st : BaseStationStatus)
    (hr : rtcmRead buf = ReadResult.complete raw m) :
    processBuffer st buf = processBuffer (processMessage st m) (buf.drop raw.length) := by
  have hlen := rtcmRead_complete_len hr
  have hpos : 0 < buf.length := by omega
  unfold processBuffer
  rw [show buf.length = (buf.length - 1) + 1 by omega, processBufferFuel_complete _ _ _ _ _ hr]
  exact processBufferFuel_of_le (raw.length - 1) _ _ (buf.drop raw.length)
    (by rw [List.length_drop]; omega)

theorem processBuffer_resync :
    ∀ (n : Nat) (buf : List Nat) (st : BaseStationStatus),
      (∀ k < n, rtcmRead (buf.drop k) = ReadResult.err) → n ≤ buf.length →
      processBuffer st buf = processBuffer st (buf.drop n) := by
  intro n
  induction n with
  | zero => intro buf st _ _; rw [List.drop_zero]
  | succ m ih =>
    intro buf st hk hn
    have h0 : rtcmRead buf = ReadResult.err := by
      have := hk 0 (by omega)
      rwa [List.drop_zero] at this
    have hb : buf ≠ [] := by
      intro h
      rw [h, rtcmRead_nil] at h0
      exact ReadResult.noConfusion h0
    rw [processBuffer_err st hb h0]
    have step := ih (buf.drop 1) st
      (fun k hkm => by rw [List.drop_drop]; exact hk (1 + k) (by omega))
      (by rw [List.length_drop]; omega)
    rw [step, List.drop_drop, Nat.add_comm 1 m]

theorem rtcmRead_take_incomplete {M : List Nat} {m : RTCMMessage}
    (h : rtcmRead M = ReadResult.complete M m) {j : Nat} (hj : j < M.length) :
    rtcmRead (M.take j) = ReadResult.incomplete := by
  obtain ⟨hraw, hle, h6⟩ := rtcmRead_complete_facts h
  have htot : rtcmTotal M = M.length := by
    have := (List.take_eq_self_iff M (n := rtcmTotal M)).mp hraw.symm
    omega
  unfold rtcmRead at h
  split_ifs at h with h1 h2 h3 h4 h5 hc h7 h8
  by_cases hj0 : j = 0
  · subst hj0
    simp [rtcmRead]
  · have hjlen : (M.take j).length = j := by
      rw [List.length_take]; omega
    have hne : M.take j ≠ [] := by
      intro hcon
      rw [hcon] at hjlen
      simp at hjlen
      omega
    have hg0 : (M.take j).getD 0 0 = M.getD 0 0 := by
      rw [List.getD_eq_getElem?_getD, List.getD_eq_getElem?_getD, List.getElem?_take,
        if_pos (by omega : 0 < j)]
    unfold rtcmRead
    rw [if_neg hne, hg0, if_neg h2]
    by_cases hj3 : j < 3
    · rw [if_pos (by omega : (M.take j).length < 3)]
    · rw [if_neg (by omega : ¬(M.take j).length < 3)]
      have hg1 : (M.take j).getD 1 0 = M.getD 1 0 := by
        rw [List.getD_eq_getElem?_getD, List.getD_eq_getElem?_getD, List.getElem?_take,
          if_pos (by omega : 1 < j)]
      have hg2 : (M.take j).getD 2 0 = M.getD 2 0 := by
        rw [List.getD_eq_getElem?_getD, List.getD_eq_getElem?_getD, List.getElem?_take,
          if_pos (by omega : 2 < j)]
      have hplen : rtcmPlen (M.take j) = rtcmPlen M := by
        unfold rtcmPlen
        rw [hg1, hg2]
      rw [hg1, if_neg h4]
      have htotj : rtcmTotal (M.take j) = rtcmTotal M := by
        unfold rtcmTotal
        rw [hplen]
      rw [if_pos (by rw [htotj, hjlen]; omega : (M.take j).length < rtcmTotal (M.take j))]

/-- Claim C1: for every input, `ecef_to_geodetic` computes exactly the
closed-form Bowring conversion laid out in the specification — same
WGS-84 constants, same `p`, `θ`, `lon`, `lat`, `N`, `height` formulas,
with latitude and longitude converted from radians to degrees. -/
theorem c1_bowring_formulas (x y z : ℝ) : ecef_to_geodetic x y z = ecefToGeodeticSpec x y z := rfl

/-- Claim C2 (amended): if every parse attempt made while garbage
bytes remain at the front of the buffer raises a structural error,
then one decode cycle on garbage followed by one complete checksum-valid
message discards exactly the garbage, one byte per failure, and then
extracts the message by consuming exactly its byte length, terminating
with an empty buffer. -/
theorem c2_resync_exact (st : BaseStationStatus) (G M : List Nat) (m : RTCMMessage)
    (hG : ∀ k < G.length, rtcmRead ((G ++ M).drop k) = ReadResult.err)
    (hM : rtcmRead M = ReadResult.complete M m) :
    processBuffer st (G ++ M) = processBuffer st M ∧
      processBuffer st M = (processMessage st m, []) := by
  constructor
  · have h := processBuffer_resync G.length (G ++ M) st hG (by simp)
    rwa [List.drop_left] at h
  · rw [processBuffer_complete st hM, List.drop_length]
    exact processBuffer_nil _

/-- Claim C2 counterexample: three arbitrary garbage bytes that mimic a
frame header declaring a 1023-byte payload, followed by one complete
checksum-valid message.  The decode cycle discards nothing (the parse
attempt reports "incomplete" and the loop stops), so the valid message
is not extracted in this cycle, contradicting the claim for arbitrary
garbage. -/
theorem c2_counterexample :
    rtcmRead frameOther = ReadResult.complete frameOther ⟨"0", [0, 0]⟩ ∧
      garbageHeaderLike.length = 3 ∧
      processBuffer initStatus (garbageHeaderLike ++ frameOther) =
        (initStatus, garbageHeaderLike ++ frameOther) :=
  ⟨by decide, by decide, by rfl⟩

theorem c2_witness :
    (∀ k < ([255] : List Nat).length,
        rtcmRead (([255] ++ frameOther).drop k) = ReadResult.err) ∧
      rtcmRead frameOther = ReadResult.complete frameOther ⟨"0", [0, 0]⟩ ∧
      (processBuffer initStatus ([255] ++ frameOther) = processBuffer initStatus frameOther ∧
        processBuffer initStatus frameOther = (processMessage initStatus ⟨"0", [0, 0]⟩, [])) :=
  ⟨by decide, by decide,
    c2_resync_exact initStatus [255] frameOther ⟨"0", [0, 0]⟩ (by decide) (by decide)⟩

/-- Claim C3: a buffer that is a strict prefix of a valid message (not
enough bytes to determine completeness) makes the decode loop stop for
the cycle, consuming zero bytes and leaving every field of the status
snapshot unchanged. -/
theorem c3_partial_message (st : BaseStationStatus) (M : List Nat) (m : RTCMMessage) (j : Nat)
    (hM : rtcmRead M = ReadResult.complete M m) (hj : j < M.length) :
    processBuffer st (M.take j) = (st, M.take j) :=
  processBuffer_incomplete st (rtcmRead_take_incomplete hM hj)

theorem c3_witness :
    rtcmRead frameOther = ReadResult.complete frameOther ⟨"0", [0, 0]⟩ ∧
      4 < frameOther.length ∧
      processBuffer initStatus (frameOther.take 4) = (initStatus, frameOther.take 4) :=
  ⟨by decide, by decide,
    c3_partial_message initStatus frameOther ⟨"0", [0, 0]⟩ 4 (by decide) (by decide)⟩

/-- Claim C4 (amended): a checksum-valid 1005 frame whose payload
decode fails causes one byte to be discarded and byte-at-a-time
resynchronization; the cycle is not aborted, and provided no parse
attempt inside the malformed frame's bytes yields a complete or
still-incomplete outcome, the malformed frame is disposed of and the
next complete message is still parsed and decoded in the same cycle. -/
theorem c4_decode_failure_isolated (st : BaseStationStatus) (bad good : List Nat)
    (m : RTCMMessage) ( _hbad : IsUndecodable1005Frame bad)
    (hk : ∀ k < bad.length, rtcmRead ((bad ++ good).drop k) = ReadResult.err)
    (hgood : rtcmRead good = ReadResult.complete good m) :
    processBuffer st (bad ++ good) = (processMessage st m, []) := by
  have h1 := processBuffer_resync bad.length (bad ++ good) st hk (by simp)
  rw [List.drop_left] at h1
  rw [h1, processBuffer_complete st hgood, List.drop_length]
  exact processBuffer_nil _

/-- Claim C4 counterexample: a checksum-valid 1005 frame whose 6-byte
payload cannot be decoded and happens to contain the header-like bytes
`0xD3 0x03 0xFF`.  The cycle drops 5 bytes, then the spurious header
makes the parse attempt report "incomplete" and the loop stops: 7 bytes
of the malformed frame stay in the buffer and the following complete
valid message is not parsed in this cycle. -/
theorem c4_counterexample :
    IsUndecodable1005Frame frameBad1005Spurious ∧
      rtcmRead frameOther = ReadResult.complete frameOther ⟨"0", [0, 0]⟩ ∧
      processBuffer initStatus (frameBad1005Spurious ++ frameOther) =
        (initStatus, [211, 3, 255, 0, 66, 41, 224] ++ frameOther) :=
  ⟨by decide, by decide, by rfl⟩

theorem c4_witness :
    IsUndecodable1005Frame frameBad1005Clean ∧
      (∀ k < frameBad1005Clean.length,
        rtcmRead ((frameBad1005Clean ++ frameOther).drop k) = ReadResult.err) ∧
      rtcmRead frameOther = ReadResult.complete frameOther ⟨"0", [0, 0]⟩ ∧
      processBuffer initStatus (frameBad1005Clean ++ frameOther) =
        (processMessage initStatus ⟨"0", [0, 0]⟩, []) :=
  ⟨by decide, by decide, by decide,
    c4_decode_failure_isolated initStatus frameBad1005Clean frameOther ⟨"0", [0, 0]⟩
      (by decide) (by decide) (by decide)⟩

/-- Claim C5: a well-formed checksum-valid message of a type other than
"1005" is fully consumed from the buffer and every field of the status
snapshot is left unchanged; no error is raised. -/
theorem c5_type_filtering (st : BaseStationStatus) (M : List Nat) (m : RTCMMessage)
    (hM : rtcmRead M = ReadResult.complete M m) (hid : m.identity ≠ "1005") :
    processBuffer st M = (st, []) := by
  rw [processBuffer_complete st hM, List.drop_length]
  unfold processMessage
  rw [if_neg hid]
  exact processBuffer_nil st

theorem c5_witness :
    rtcmRead frameOther = ReadResult.complete frameOther ⟨"0", [0, 0]⟩ ∧
      processBuffer initStatus frameOther = (initStatus, []) :=
  ⟨by decide,
    c5_type_filtering initStatus frameOther ⟨"0", [0, 0]⟩ (by decide) (by decide)⟩

/-- Claim C7: whenever a station-position (type 1005) message is
successfully decoded, the values written to the snapshot are exactly
the converted latitude and longitude rounded to 8 decimal places and
the converted altitude rounded to 2 decimal places. -/
theorem c7_rounding_policy (st : BaseStationStatus) (buf : List Nat) (m : RTCMMessage)
    (hM : rtcmRead buf = ReadResult.complete buf m) (hid : m.identity = "1005") :
    processBuffer st buf =
      ({ st with
          latitude :=
            pyRound (ecef_to_geodetic (df025 m.payload) (df026 m.payload) (df027 m.payload)).1 8
          longitude :=
            pyRound (ecef_to_geodetic (df025 m.payload) (df026 m.payload) (df027 m.payload)).2.1 8
          altitude :=
            pyRound (ecef_to_geodetic (df025 m.payload) (df026 m.payload) (df027 m.payload)).2.2
              2 },
        []) := by
  rw [processBuffer_complete st hM, List.drop_length]
  unfold processMessage
  rw [if_pos hid]
  unfold apply1005
  exact processBuffer_nil _

theorem c7_witness :
    rtcmRead frame1005 = ReadResult.complete frame1005 ⟨"1005", payload1005⟩ ∧
      processBuffer initStatus frame1005 =
        ({ initStatus with
            latitude :=
              pyRound
                (ecef_to_geodetic (df025 payload1005) (df026 payload1005)
                    (df027 payload1005)).1 8
            longitude :=
              pyRound
                (ecef_to_geodetic (df025 payload1005) (df026 payload1005)
                    (df027 payload1005)).2.1 8
            altitude :=
              pyRound
                (ecef_to_geodetic (df025 payload1005) (df026 payload1005)
                    (df027 payload1005)).2.2 2 },
          []) :=
  ⟨by decide,
    c7_rounding_policy initStatus frame1005 ⟨"1005", payload1005⟩ (by decide) rfl⟩

/-- Claim C8: the connection handle follows the two-state machine —
`Disconnected → Connected` only on a successful connect, any read
failure yields `Disconnected` without recovery in the same cycle, and
after a read failure the next `update_status` call reconnects without
manual intervention. -/
theorem c8_connection_state_machine :
    (∀ (m : GnssMonitor) (cOk : Bool) (r : ReadOutcome),
        m.conn = ConnState.disconnected → cOk = false →
        (update_status m cOk r).1.conn = ConnState.disconnected ∧
          (update_status m cOk r).2 = none) ∧
      (∀ (m : GnssMonitor) (cOk : Bool) (r : ReadOutcome),
        (update_status m cOk r).1.conn = ConnState.connected →
        (m.conn = ConnState.connected ∨ cOk = true) ∧ r ≠ ReadOutcome.failed) ∧
      (∀ (m : GnssMonitor) (cOk : Bool),
        (update_status m cOk ReadOutcome.failed).1.conn = ConnState.disconnected) ∧
      (∀ (m : GnssMonitor) (cOk : Bool) (d : List Nat),
        (update_status (update_status m cOk ReadOutcome.failed).1 true
            (ReadOutcome.ok d)).1.conn = ConnState.connected) := by
  refine ⟨?_, ?_, ?_, ?_⟩
  · intro m cOk r h1 h2
    unfold update_status
    rw [if_pos ⟨h1, h2⟩]
    subst h2
    simp [connectResult]
  · intro m cOk r h
    by_cases hd : m.conn = ConnState.disconnected ∧ cOk = false
    · exfalso
      unfold update_status at h
      rw [if_pos hd] at h
      rw [hd.2] at h
      simp [connectResult] at h
    · cases r with
      | failed =>
        exfalso
        unfold update_status at h
        rw [if_neg hd] at h
        simp at h
      | ok data =>
        refine ⟨?_, by simp⟩
        by_cases hc : m.conn = ConnState.connected
        · exact Or.inl hc
        · right
          cases cOk with
          | true => rfl
          | false =>
            exfalso
            apply hd
            refine ⟨?_, rfl⟩
            cases hcm : m.conn with
            | disconnected => rfl
            | connected => exact absurd hcm hc
  · intro m cOk
    unfold update_status
    by_cases hd : m.conn = ConnState.disconnected ∧ cOk = false
    · rw [if_pos hd]
      rw [hd.2]
      simp [connectResult]
    · rw [if_neg hd]
  · intro m cOk d
    have hdis : (update_status m cOk ReadOutcome.failed).1.conn = ConnState.disconnected := by
      unfold update_status
      by_cases hd : m.conn = ConnState.disconnected ∧ cOk = false
      · rw [if_pos hd, hd.2]
        simp [connectResult]
      · rw [if_neg hd]
    unfold update_status
    rw [if_neg (by simp)]
    by_cases hdd : d = []
    · subst hdd
      simp
    · simp [hdd]

theorem c8_witness :
    ((update_status monitor0 false (ReadOutcome.ok [])).1.conn = ConnState.disconnected ∧
        (update_status monitor0 false (ReadOutcome.ok [])).2 = none) ∧
      ((monitor0.conn = ConnState.connected ∨ true = true) ∧
        ReadOutcome.ok ([] : List Nat) ≠ ReadOutcome.failed) ∧
      (update_status monitor0 true ReadOutcome.failed).1.conn = ConnState.disconnected ∧
      (update_status (update_status monitor0 true ReadOutcome.failed).1 true
          (ReadOutcome.ok [])).1.conn = ConnState.connected :=
  ⟨c8_connection_state_machine.1 monitor0 false (ReadOutcome.ok []) rfl rfl,
    c8_connection_state_machine.2.1 monitor0 true (ReadOutcome.ok []) (by rfl),
    c8_connection_state_machine.2.2.1 monitor0 true,
    c8_connection_state_machine.2.2.2 monitor0 true []⟩

/-- Claim C10: `update_status` is a total function of its inputs (every
connect, read, parse and decode error is handled internally); it
returns "no status" exactly when there is no live connection and
connecting fails, or when the socket read raises, and in every other
case it returns the monitor's long-lived status snapshot. -/
theorem c10_return_contract :
    ∀ (m : GnssMonitor) (cOk : Bool) (r : ReadOutcome),
      ((update_status m cOk r).2 = none ↔
        (m.conn = ConnState.disconnected ∧ cOk = false) ∨ r = ReadOutcome.failed) ∧
      ((update_status m cOk r).2 = none ∨
        (update_status m cOk r).2 = some (update_status m cOk r).1.status) := by
  intro m cOk r
  by_cases hd : m.conn = ConnState.disconnected ∧ cOk = false
  · constructor
    · unfold update_status
      rw [if_pos hd]
      simp [hd]
    · left
      unfold update_status
      rw [if_pos hd]
  · cases r with
    | failed =>
      constructor
      · unfold update_status
        rw [if_neg hd]
        simp
      · left
        unfold update_status
        rw [if_neg hd]
    | ok data =>
      constructor
      · unfold update_status
        rw [if_neg hd]
        by_cases hdd : data = []
        · subst hdd
          simp [hd]
        · simp [hdd, hd]
      · right
        unfold update_status
        rw [if_neg hd]
        by_cases hdd : data = []
        · subst hdd
          simp
        · simp [hdd]

theorem atan2_cos_sin {r θ : ℝ} (hr : 0 < r) (hθ1 : -Real.pi < θ) (hθ2 : θ ≤ Real.pi) :
    atan2 (r * Real.sin θ) (r * Real.cos θ) = θ := by
  unfold atan2
  have hz : ((r * Real.cos θ : ℝ) : ℂ) + (r * Real.sin θ : ℝ) * Complex.I
      = (r : ℝ) * (Complex.cos θ + Complex.sin θ * Complex.I) := by
    rw [Complex.ofReal_mul, Complex.ofReal_mul, Complex.ofReal_cos, Complex.ofReal_sin]
    ring
  rw [hz]
  exact Complex.arg_mul_cos_add_sin_mul_I hr ⟨hθ1, hθ2⟩

theorem sin_atan2 (v u : ℝ) : Real.sin (atan2 v u) = v / Real.sqrt (u ^ 2 + v ^ 2) := by
  unfold atan2
  rw [Complex.sin_arg, Complex.abs_apply, Complex.normSq_add_mul_I]
  simp

theorem cos_atan2 (v u : ℝ) (h : ¬(u = 0 ∧ v = 0)) :
    Real.cos (atan2 v u) = u / Real.sqrt (u ^ 2 + v ^ 2) := by
  unfold atan2
  have hne : ((u : ℝ) : ℂ) + (v : ℝ) * Complex.I ≠ 0 := by
    intro hz
    apply h
    rw [Complex.ext_iff] at hz
    simpa using hz
  rw [Complex.cos_arg hne, Complex.abs_apply, Complex.normSq_add_mul_I]
  simp

theorem atan2_pos_imag {v : ℝ} (hv : 0 < v) : atan2 v 0 = Real.pi / 2 := by
  unfold atan2
  apply Complex.arg_eq_pi_div_two_iff.mpr
  constructor
  · simp
  · simpa using hv

theorem wgs_a_pos : (0 : ℝ) < WGS84.a := by unfold WGS84.a; norm_num

theorem wgs_e2_pos : (0 : ℝ) < WGS84.e2 := by unfold WGS84.e2 WGS84.f; norm_num

theorem wgs_e2_lt_one : WGS84.e2 < 1 := by unfold WGS84.e2 WGS84.f; norm_num

theorem wgs_b_pos : (0 : ℝ) < WGS84.b := by unfold WGS84.b WGS84.a WGS84.f; norm_num

theorem wgs_b_sq : WGS84.b ^ 2 = WGS84.a ^ 2 * (1 - WGS84.e2) := by
  unfold WGS84.b WGS84.e2
  ring

theorem wgs_b_lt_a : WGS84.b < WGS84.a := by unfold WGS84.b WGS84.a WGS84.f; norm_num

theorem wgs_ep2_pos : (0 : ℝ) < WGS84.ep2 := by
  unfold WGS84.ep2
  apply div_pos
  · nlinarith [wgs_b_lt_a, wgs_b_pos, wgs_a_pos]
  · exact pow_pos wgs_b_pos 2


theorem ecef_roundtrip_exact (lat0 lon0 : ℝ) (h1 : -(Real.pi / 2) < lat0)
    (h2 : lat0 < Real.pi / 2) (h3 : -Real.pi < lon0) (h4 : lon0 ≤ Real.pi) :
    ecef_to_geodetic (geodetic_to_ecef lat0 lon0).1 (geodetic_to_ecef lat0 lon0).2.1
      (geodetic_to_ecef lat0 lon0).2.2 = (degrees lat0, degrees lon0, 0) := by
  obtain ⟨s, hs⟩ : ∃ t, t = Real.sin lat0 := ⟨_, rfl⟩
  obtain ⟨c, hcdef⟩ : ∃ t, t = Real.cos lat0 := ⟨_, rfl⟩
  have hc : 0 < c := hcdef ▸ Real.cos_pos_of_mem_Ioo ⟨h1, h2⟩
  have hsc : s ^ 2 + c ^ 2 = 1 := by
    rw [hs, hcdef]
    exact Real.sin_sq_add_cos_sq lat0
  have hWpos : 0 < 1 - WGS84.e2 * s ^ 2 := by
    nlinarith [wgs_e2_pos, wgs_e2_lt_one, sq_nonneg c, sq_nonneg s]
  obtain ⟨W, hWdef⟩ : ∃ t, t = Real.sqrt (1 - WGS84.e2 * s ^ 2) := ⟨_, rfl⟩
  have hW : 0 < W := hWdef ▸ Real.sqrt_pos.mpr hWpos
  have hW2 : W ^ 2 = 1 - WGS84.e2 * s ^ 2 := by
    rw [hWdef]
    exact Real.sq_sqrt hWpos.le
  obtain ⟨N0, hN0def⟩ : ∃ t, t = WGS84.a / W := ⟨_, rfl⟩
  have hN0 : 0 < N0 := hN0def ▸ div_pos wgs_a_pos hW
  obtain ⟨x, hxdef⟩ : ∃ t, t = N0 * c * Real.cos lon0 := ⟨_, rfl⟩
  obtain ⟨y, hydef⟩ : ∃ t, t = N0 * c * Real.sin lon0 := ⟨_, rfl⟩
  obtain ⟨z, hzdef⟩ : ∃ t, t = N0 * (1 - WGS84.e2) * s := ⟨_, rfl⟩
  have hgeo : geodetic_to_ecef lat0 lon0 = (x, y, z) := by
    unfold geodetic_to_ecef
    rw [← hs, ← hcdef, ← hWdef, ← hN0def, ← hxdef, ← hydef, ← hzdef]
  -- p = N0 * c
  have hp : pOf x y = N0 * c := by
    unfold pOf
    have hxy : x ^ 2 + y ^ 2 = (N0 * c) ^ 2 := by
      have hsc2 : Real.sin lon0 ^ 2 + Real.cos lon0 ^ 2 = 1 := Real.sin_sq_add_cos_sq lon0
      rw [hxdef, hydef]
      nlinarith [hsc2]
    rw [hxy, Real.sqrt_sq (mul_pos hN0 hc).le]
  -- lon
  have hlon : atan2 y x = lon0 := by
    rw [hxdef, hydef]
    exact atan2_cos_sin (mul_pos hN0 hc) h3 h4
  -- theta
  have habs : Real.sqrt ((N0 * c * WGS84.b) ^ 2 + (z * WGS84.a) ^ 2) = N0 * WGS84.b * W := by
    have hsq : (N0 * c * WGS84.b) ^ 2 + (z * WGS84.a) ^ 2 = (N0 * WGS84.b * W) ^ 2 := by
      rw [hzdef, show (N0 * WGS84.b * W) ^ 2 = N0 ^ 2 * WGS84.b ^ 2 * W ^ 2 by ring, hW2]
      linear_combination (N0 ^ 2 * (c ^ 2 - 1 + WGS84.e2 * s ^ 2)) * wgs_b_sq +
        (N0 ^ 2 * WGS84.a ^ 2 * (1 - WGS84.e2)) * hsc
    rw [hsq, Real.sqrt_sq (mul_pos (mul_pos hN0 wgs_b_pos) hW).le]
  have hsinT : Real.sin (thetaOf x y z) = WGS84.b * s / (WGS84.a * W) := by
    unfold thetaOf
    rw [hp, sin_atan2, habs, hzdef]
    field_simp [hW.ne', wgs_a_pos.ne', wgs_b_pos.ne', hN0.ne']
    linear_combination (-(N0 * s * W)) * wgs_b_sq
  have hcosT : Real.cos (thetaOf x y z) = c / W := by
    unfold thetaOf
    rw [hp, cos_atan2 _ _
      (fun hcon => absurd hcon.1 (mul_pos (mul_pos hN0 hc) wgs_b_pos).ne'), habs]
    field_simp [hW.ne', wgs_a_pos.ne', wgs_b_pos.ne', hN0.ne']
    ring
  -- lat
  have hep2 : WGS84.ep2 = (WGS84.a ^ 2 - WGS84.b ^ 2) / WGS84.b ^ 2 := rfl
  have hnum : z + WGS84.ep2 * WGS84.b * (WGS84.b * s / (WGS84.a * W)) ^ 3 =
      WGS84.b ^ 2 / (WGS84.a * W ^ 3) * s := by
    rw [hzdef, hN0def, hep2]
    field_simp [hW.ne', wgs_a_pos.ne', wgs_b_pos.ne']
    linear_combination (WGS84.a ^ 5 * s * WGS84.b ^ 2 * W ^ 4 * (1 - WGS84.e2)) * hW2 +
      (WGS84.a * s * WGS84.b ^ 2 * W ^ 4 *
        (WGS84.a ^ 2 * (2 * WGS84.e2 * s ^ 2 - 1 - s ^ 2) -
          s ^ 2 * (WGS84.b ^ 2 - WGS84.a ^ 2 * (1 - WGS84.e2)))) * wgs_b_sq
  have hden : N0 * c - WGS84.e2 * WGS84.a * (c / W) ^ 3 =
      WGS84.b ^ 2 / (WGS84.a * W ^ 3) * c := by
    rw [hN0def]
    field_simp [hW.ne', wgs_a_pos.ne', wgs_b_pos.ne']
    linear_combination (WGS84.a ^ 2 * c * W ^ 4) * hW2 +
      (-(WGS84.a ^ 2 * WGS84.e2 * c * W ^ 4)) * hsc + (-(c * W ^ 4)) * wgs_b_sq
  have hr : 0 < WGS84.b ^ 2 / (WGS84.a * W ^ 3) :=
    div_pos (pow_pos wgs_b_pos 2) (mul_pos wgs_a_pos (pow_pos hW 3))
  have hlat : latOf x y z = lat0 := by
    unfold latOf
    rw [hp, hsinT, hcosT, hnum, hden, hs, hcdef]
    exact atan2_cos_sin hr (by linarith [Real.pi_pos]) (by linarith [Real.pi_pos])
  -- N and height
  have hN : nOf x y z = N0 := by
    unfold nOf
    rw [hlat, ← hs, ← hWdef, ← hN0def]
  have hheight : heightOf x y z = 0 := by
    unfold heightOf
    rw [hp, hlat, hN, ← hcdef, mul_div_assoc, div_self hc.ne', mul_one, sub_self]
  have hfinal : ecef_to_geodetic x y z = (degrees lat0, degrees lon0, 0) := by
    unfold ecef_to_geodetic
    rw [hlat, hlon, hheight]
  rw [hgeo]
  exact hfinal


/-- Claim C6: for every `z`, the degenerate input `x = 0, y = 0` yields
longitude exactly `0.0` — `atan2 0 0` is `0` by definition, not a NaN or
an error. -/
theorem c6_pole_longitude (z : ℝ) : (ecef_to_geodetic 0 0 z).2.1 = 0 := by
  unfold ecef_to_geodetic atan2 degrees
  simp

/-- Claim C9 (amended): for any ECEF point derived from a known
geodetic point on the reference ellipsoid whose latitude lies strictly
between the poles and whose longitude is in the canonical range
`(-180°, 180°]`, `ecef_to_geodetic` recovers latitude and longitude
within 1e-6 degrees and altitude within 1e-2 meters (in exact real
arithmetic the recovery is exact). -/
theorem c9_roundtrip (lat0 lon0 : ℝ) (h1 : -(Real.pi / 2) < lat0) (h2 : lat0 < Real.pi / 2)
    (h3 : -Real.pi < lon0) (h4 : lon0 ≤ Real.pi) :
    |(ecef_to_geodetic (geodetic_to_ecef lat0 lon0).1 (geodetic_to_ecef lat0 lon0).2.1
        (geodetic_to_ecef lat0 lon0).2.2).1 - degrees lat0| ≤ 1e-6 ∧
      |(ecef_to_geodetic (geodetic_to_ecef lat0 lon0).1 (geodetic_to_ecef lat0 lon0).2.1
          (geodetic_to_ecef lat0 lon0).2.2).2.1 - degrees lon0| ≤ 1e-6 ∧
      |(ecef_to_geodetic (geodetic_to_ecef lat0 lon0).1 (geodetic_to_ecef lat0 lon0).2.1
          (geodetic_to_ecef lat0 lon0).2.2).2.2 - 0| ≤ 1e-2 := by
  have h := ecef_roundtrip_exact lat0 lon0 h1 h2 h3 h4
  obtain ⟨e1, e23⟩ := Prod.ext_iff.mp h
  obtain ⟨e2, e3⟩ := Prod.ext_iff.mp e23
  rw [e1, e2, e3]
  norm_num

theorem c9_witness :
    (-(Real.pi / 2) < (0 : ℝ) ∧ (0 : ℝ) < Real.pi / 2 ∧ -Real.pi < (0 : ℝ) ∧
        (0 : ℝ) ≤ Real.pi) ∧
      (|(ecef_to_geodetic (geodetic_to_ecef 0 0).1 (geodetic_to_ecef 0 0).2.1
            (geodetic_to_ecef 0 0).2.2).1 - degrees 0| ≤ 1e-6 ∧
        |(ecef_to_geodetic (geodetic_to_ecef 0 0).1 (geodetic_to_ecef 0 0).2.1
            (geodetic_to_ecef 0 0).2.2).2.1 - degrees 0| ≤ 1e-6 ∧
        |(ecef_to_geodetic (geodetic_to_ecef 0 0).1 (geodetic_to_ecef 0 0).2.1
            (geodetic_to_ecef 0 0).2.2).2.2 - 0| ≤ 1e-2) := by
  have hp := Real.pi_pos
  exact ⟨⟨by linarith, by linarith, by linarith, by linarith⟩,
    c9_roundtrip 0 0 (by linarith) (by linarith) (by linarith) (by linarith)⟩

/-- Claim C9 counterexample: at the exact north pole (a known geodetic
point on the reference ellipsoid, latitude 90°, altitude 0) the
converter returns altitude `-a/sqrt(1-e²)` (about -6.4e6 m), far
outside the claimed 1e-2 m tolerance, because `height = p/cos(lat) - N`
degenerates at the pole. -/
theorem c9_counterexample :
    ¬ |(ecef_to_geodetic (geodetic_to_ecef (Real.pi / 2) 0).1
        (geodetic_to_ecef (Real.pi / 2) 0).2.1
        (geodetic_to_ecef (Real.pi / 2) 0).2.2).2.2 - 0| ≤ 1e-2 := by
  have hWpos : (0 : ℝ) < 1 - WGS84.e2 := by linarith [wgs_e2_lt_one]
  have hW : 0 < Real.sqrt (1 - WGS84.e2) := Real.sqrt_pos.mpr hWpos
  have hz0 : 0 < WGS84.a / Real.sqrt (1 - WGS84.e2) * (1 - WGS84.e2) :=
    mul_pos (div_pos wgs_a_pos hW) hWpos
  have hxyz : geodetic_to_ecef (Real.pi / 2) 0 =
      (0, 0, WGS84.a / Real.sqrt (1 - WGS84.e2) * (1 - WGS84.e2)) := by
    unfold geodetic_to_ecef
    rw [Real.sin_pi_div_two, Real.cos_pi_div_two]
    norm_num
  rw [hxyz]
  have hpz : pOf 0 0 = 0 := by
    unfold pOf
    norm_num
  have hth : thetaOf 0 0 (WGS84.a / Real.sqrt (1 - WGS84.e2) * (1 - WGS84.e2)) =
      Real.pi / 2 := by
    unfold thetaOf
    rw [hpz, zero_mul]
    exact atan2_pos_imag (mul_pos hz0 wgs_a_pos)
  have hlatp : latOf 0 0 (WGS84.a / Real.sqrt (1 - WGS84.e2) * (1 - WGS84.e2)) =
      Real.pi / 2 := by
    unfold latOf
    rw [hth, hpz, Real.sin_pi_div_two, Real.cos_pi_div_two]
    rw [show WGS84.a / Real.sqrt (1 - WGS84.e2) * (1 - WGS84.e2) +
        WGS84.ep2 * WGS84.b * (1 : ℝ) ^ 3 =
        WGS84.a / Real.sqrt (1 - WGS84.e2) * (1 - WGS84.e2) + WGS84.ep2 * WGS84.b by ring,
      show (0 : ℝ) - WGS84.e2 * WGS84.a * 0 ^ 3 = 0 by ring]
    exact atan2_pos_imag (add_pos hz0 (mul_pos wgs_ep2_pos wgs_b_pos))
  have hNp : nOf 0 0 (WGS84.a / Real.sqrt (1 - WGS84.e2) * (1 - WGS84.e2)) =
      WGS84.a / Real.sqrt (1 - WGS84.e2) := by
    unfold nOf
    rw [hlatp, Real.sin_pi_div_two]
    norm_num
  have hh : heightOf 0 0 (WGS84.a / Real.sqrt (1 - WGS84.e2) * (1 - WGS84.e2)) =
      -(WGS84.a / Real.sqrt (1 - WGS84.e2)) := by
    unfold heightOf
    rw [hpz, hlatp, Real.cos_pi_div_two, hNp, zero_div, zero_sub]
  show ¬ |heightOf 0 0 (WGS84.a / Real.sqrt (1 - WGS84.e2) * (1 - WGS84.e2)) - 0| ≤ 1e-2
  rw [hh, sub_zero, abs_neg, abs_of_pos (div_pos wgs_a_pos hW)]
  have hsle : Real.sqrt (1 - WGS84.e2) ≤ 1 := by
    have h1 := Real.sqrt_le_sqrt (show 1 - WGS84.e2 ≤ 1 by linarith [wgs_e2_pos])
    rwa [Real.sqrt_one] at h1
  have hge : WGS84.a / 1 ≤ WGS84.a / Real.sqrt (1 - WGS84.e2) :=
    div_le_div_of_nonneg_left wgs_a_pos.le hW hsle
  rw [div_one] at hge
  have ha : (1 : ℝ) ≤ WGS84.a := by unfold WGS84.a; norm_num
  intro hcon
  have : WGS84.a ≤ 1e-2 := le_trans hge hcon
  linarith
